import Mathlib

/-!
Verification of the OpenCut video frame cache / predictive preloading subsystem,
specifically the Preload Scheduler (`VideoPreloader`) and the Performance Monitor.

The TypeScript sources are embedded shallowly: JS numbers become rationals (`ℚ`),
the mutable singleton state becomes an explicit `VideoPreloader` record threaded
through the operations, the `for (time = a; time < b; time += 1/24)` sampling loop
becomes an explicit list of sample times, the synchronous `while` drain loop of
`processPreloadQueue` becomes a structurally recursive function, and the
asynchronous completion callback (the `finally` block of a started preload job)
becomes the explicit `completeJob` transition.  `requestIdleCallback` job bodies
only touch the state through that `finally` block, so a run of the system is a
sequence of `schedulePreload` / `configure` / `clearQueue` / `completeJob` steps.
-/

namespace OpenCut

/-! ## External collaborator data (timeline and media registry)

Fields as consumed by the preloader (`@/types/timeline`, `@/types/media`):
a media-typed timeline element carries a media id, start time, duration and
trim offsets; a media file carries an id, a declared type string and an
optional byte source (`file`), which we represent by an opaque handle name. -/

structure MediaElement where
  mediaId : String
  startTime : ℚ
  duration : ℚ
  trimStart : ℚ
  trimEnd : ℚ
  type : String
  hidden : Bool
deriving DecidableEq, Repr

structure TimelineTrack where
  type : String
  muted : Bool
  elements : List MediaElement
deriving DecidableEq, Repr

structure MediaFile where
  id : String
  type : String
  file : Option String
deriving DecidableEq, Repr

/-- `element.startTime + element.duration - element.trimStart - element.trimEnd`,
the end of the element's active interval on the timeline. -/
def MediaElement.elementEnd (e : MediaElement) : ℚ :=
  e.startTime + e.duration - e.trimStart - e.trimEnd

/-! ## Preload Scheduler state and operations (`VideoPreloader`) -/

structure PreloadJob where
  mediaId : String
  file : String
  targetTime : ℚ
  priority : ℚ
deriving DecidableEq, Repr

structure VideoPreloader where
  preloadQueue : List PreloadJob
  isPreloading : Bool
  preloadRadius : ℚ
  maxConcurrentPreloads : ℚ
  currentPreloads : ℕ
deriving DecidableEq, Repr

/-- The initial (module-singleton) state: empty queue, radius 3s, concurrency 2. -/
def VideoPreloader.init : VideoPreloader :=
  { preloadQueue := []
    isPreloading := false
    preloadRadius := 3
    maxConcurrentPreloads := 2
    currentPreloads := 0 }

/-- `const adjustedRadius = this.preloadRadius / Math.max(0.5, playbackSpeed)` -/
def adjustedRadius (base speed : ℚ) : ℚ := base / max (1/2) speed

/-- Number of iterations of `for (time = a; time < b; time += 1/24)`:
the naturals `k` with `a + k/24 < b`, i.e. `k < (b - a) * 24`. -/
def sampleCount (a b : ℚ) : ℕ := (⌈(b - a) * 24⌉).toNat

/-- The sample times visited by `for (time = a; time < b; time += frameInterval)`
with `frameInterval = 1 / 24`. -/
def sampleTimes (a b : ℚ) : List ℚ :=
  (List.range (sampleCount a b)).map (fun k : ℕ => a + (k : ℚ) * (1/24))

/-- `Math.max(elementStart, currentTime - adjustedRadius)` -/
def preloadStartOf (t0 r : ℚ) (e : MediaElement) : ℚ := max e.startTime (t0 - r)

/-- `Math.min(elementEnd, currentTime + adjustedRadius)` -/
def preloadEndOf (t0 r : ℚ) (e : MediaElement) : ℚ := min e.elementEnd (t0 + r)

/-- `Math.max(0, 100 - distanceFromCurrent * 10)` with
`distanceFromCurrent = Math.abs(time - currentTime)`. -/
def jobPriority (t0 t : ℚ) : ℚ := max 0 (100 - |t - t0| * 10)

/-- The job pushed for sample time `t` of element `e`:
`targetTime` is the trim-adjusted local time `t - elementStart + trimStart`. -/
def mkJob (m : MediaFile) (e : MediaElement) (t0 t : ℚ) (f : String) : PreloadJob :=
  { mediaId := m.id
    file := f
    targetTime := t - e.startTime + e.trimStart
    priority := jobPriority t0 t }

/-- `findRelevantVideoElements`: tracks that are not muted and are media tracks;
elements that are media-typed, not hidden, overlap
`(currentTime - 1, currentTime + lookAheadTime)` strictly, and whose media item
is video-typed. -/
def findRelevantVideoElements (currentTime : ℚ) (tracks : List TimelineTrack)
    (mediaFiles : List MediaFile) (lookAheadTime : ℚ) : List MediaElement :=
  let searchStart := currentTime - 1
  let searchEnd := currentTime + lookAheadTime
  (tracks.filter (fun track => !track.muted && track.type == "media")).flatMap
    (fun track => track.elements.filter (fun e =>
      e.type == "media" && !e.hidden &&
      decide (e.startTime < searchEnd) && decide (searchStart < e.elementEnd) &&
      (mediaFiles.find? (fun m => m.id == e.mediaId)).any (fun m => m.type == "video")))

/-- The body of the per-element job loop of `schedulePreload`: skip when the
media item is missing, not video-typed, or has no byte source; otherwise one
job per sample time in `[preloadStart, preloadEnd)`. -/
def jobsForElement (mediaFiles : List MediaFile) (t0 r : ℚ) (e : MediaElement) :
    List PreloadJob :=
  match mediaFiles.find? (fun m => m.id == e.mediaId) with
  | none => []
  | some m =>
    if m.type == "video" then
      match m.file with
      | none => []
      | some f =>
        (sampleTimes (preloadStartOf t0 r e) (preloadEndOf t0 r e)).map
          (fun t => mkJob m e t0 t f)
    else []

structure ScheduleArgs where
  currentTime : ℚ
  tracks : List TimelineTrack
  mediaFiles : List MediaFile
  playbackSpeed : ℚ
deriving DecidableEq, Repr

/-- `this.preloadQueue.sort((a, b) => b.priority - a.priority)`: a stable sort
placing higher priorities first.  `Array.prototype.sort` is stable, and
`insertionSort` with the total preorder `b.priority ≤ a.priority` is the stable
sort for that comparator. -/
def sortByPriorityDesc (l : List PreloadJob) : List PreloadJob :=
  l.insertionSort (fun a b => b.priority ≤ a.priority)

/-- The queue built by `schedulePreload` before draining: all per-element jobs,
sorted by descending priority. -/
def computeQueue (args : ScheduleArgs) (r : ℚ) : List PreloadJob :=
  sortByPriorityDesc
    ((findRelevantVideoElements args.currentTime args.tracks args.mediaFiles r).flatMap
      (jobsForElement args.mediaFiles args.currentTime r))

/-- The synchronous `while` loop of `processPreloadQueue`: shift jobs off the
queue and increment `currentPreloads` while the queue is nonempty and
`currentPreloads < maxConcurrentPreloads`.  Returns the remaining queue and
the new active count. -/
def drainQueue (maxC : ℚ) : List PreloadJob → ℕ → List PreloadJob × ℕ
  | [], active => ([], active)
  | job :: rest, active =>
    if (active : ℚ) < maxC then drainQueue maxC rest (active + 1)
    else (job :: rest, active)

/-- `processPreloadQueue`: early-return when `isPreloading` is set or the queue
is empty; otherwise set `isPreloading`, run the drain loop, and clear
`isPreloading` again only when no job is active afterwards. -/
def processPreloadQueue (s : VideoPreloader) : VideoPreloader :=
  if s.isPreloading || s.preloadQueue.isEmpty then s
  else
    let p := drainQueue s.maxConcurrentPreloads s.preloadQueue s.currentPreloads
    let s2 := { s with isPreloading := true, preloadQueue := p.1, currentPreloads := p.2 }
    if s2.currentPreloads = 0 then { s2 with isPreloading := false } else s2

/-- `schedulePreload`: discard the old queue, recompute the plan with the
speed-adjusted radius, sort it, and start draining. -/
def schedulePreload (args : ScheduleArgs) (s : VideoPreloader) : VideoPreloader :=
  processPreloadQueue
    { s with preloadQueue :=
        computeQueue args (adjustedRadius s.preloadRadius args.playbackSpeed) }

/-- The `finally` block of a started preload job: decrement `currentPreloads`;
if the queue is nonempty call `processPreloadQueue` again, otherwise clear
`isPreloading` once no job remains active. -/
def completeJob (s : VideoPreloader) : VideoPreloader :=
  let s1 := { s with currentPreloads := s.currentPreloads - 1 }
  if !s1.preloadQueue.isEmpty then processPreloadQueue s1
  else if s1.currentPreloads = 0 then { s1 with isPreloading := false }
  else s1

/-- The whole background job body
`try { await videoCache.getFrameAt(...) } catch (error) { console.warn(...) }
finally { ... }`: whatever the decode outcome, the `catch` swallows the error
and the `finally` block (`completeJob`) runs. -/
def runJob (outcome : Except String Unit) (s : VideoPreloader) : VideoPreloader :=
  match outcome with
  | Except.ok _ => completeJob s
  | Except.error _ => completeJob s

/-- `clearQueue(): this.preloadQueue = []` -/
def clearQueue (s : VideoPreloader) : VideoPreloader := { s with preloadQueue := [] }

structure PreloaderStats where
  queueLength : ℕ
  activePreloads : ℕ
  isPreloading : Bool
deriving DecidableEq, Repr

/-- `getStats()` -/
def getStats (s : VideoPreloader) : PreloaderStats :=
  { queueLength := s.preloadQueue.length
    activePreloads := s.currentPreloads
    isPreloading := s.isPreloading }

/-- `configure({preloadRadius, maxConcurrentPreloads})`: each field, when
present, is clamped (`Math.max(1, Math.min(10, r))`, `Math.max(1, Math.min(4, c))`);
an absent (`undefined`) field leaves the setting untouched. -/
def configure (preloadRadius maxConcurrentPreloads : Option ℚ)
    (s : VideoPreloader) : VideoPreloader :=
  let s1 := match preloadRadius with
    | some r => { s with preloadRadius := max 1 (min 10 r) }
    | none => s
  match maxConcurrentPreloads with
  | some c => { s1 with maxConcurrentPreloads := max 1 (min 4 c) }
  | none => s1

/-! ## The preloader as a transition system -/

/-- One externally observable step of the preloader: a `schedulePreload` call,
a `configure` call, a `clearQueue` call, or the completion of one started
preload job (only possible while a job is active). -/
inductive Step : VideoPreloader → VideoPreloader → Prop
  | schedule (args : ScheduleArgs) (s : VideoPreloader) : Step s (schedulePreload args s)
  | config (r c : Option ℚ) (s : VideoPreloader) : Step s (configure r c s)
  | clear (s : VideoPreloader) : Step s (clearQueue s)
  | complete (s : VideoPreloader) (h : 0 < s.currentPreloads) : Step s (completeJob s)

/-- Reachability under arbitrary `Step` sequences. -/
def Reachable : VideoPreloader → VideoPreloader → Prop :=
  Relation.ReflTransGen Step

/-! ## Concrete scenario inputs used by witnesses and counterexamples -/

/-- A registered video media file with an available byte source. -/
def mf0 : MediaFile := { id := "a", type := "video", file := some "f" }

/-- A short video element right at the playhead: active on `[10, 10 + 1/8]`,
yielding exactly three 1/24-second samples. -/
def el0 : MediaElement :=
  { mediaId := "a", startTime := 10, duration := 1/8, trimStart := 0, trimEnd := 0,
    type := "media", hidden := false }

/-- `schedulePreload` inputs at playhead 10s, speed 1, over `el0`. -/
def args0 : ScheduleArgs :=
  { currentTime := 10
    tracks := [{ type := "media", muted := false, elements := [el0] }]
    mediaFiles := [mf0]
    playbackSpeed := 1 }

/-- A video element active on `[7, 19/2]`: it intersects the element-search
window `[9, 13]` of playhead 10, but its sampling starts at `7 = 10 - radius`,
before that window. -/
def el2 : MediaElement :=
  { mediaId := "a", startTime := 7, duration := 5/2, trimStart := 0, trimEnd := 0,
    type := "media", hidden := false }

/-- `schedulePreload` inputs at playhead 10s, speed 1, over `el2`. -/
def args2 : ScheduleArgs :=
  { currentTime := 10
    tracks := [{ type := "media", muted := false, elements := [el2] }]
    mediaFiles := [mf0]
    playbackSpeed := 1 }

/-- A long video element spanning `[0, 20]`, wider than any search window. -/
def el5 : MediaElement :=
  { mediaId := "a", startTime := 0, duration := 20, trimStart := 0, trimEnd := 0,
    type := "media", hidden := false }

/-- Playhead 10s over `el5` at playback speed 1. -/
def args5a : ScheduleArgs :=
  { currentTime := 10
    tracks := [{ type := "media", muted := false, elements := [el5] }]
    mediaFiles := [mf0]
    playbackSpeed := 1 }

/-- Playhead 10s over `el5` at playback speed 2. -/
def args5b : ScheduleArgs :=
  { currentTime := 10
    tracks := [{ type := "media", muted := false, elements := [el5] }]
    mediaFiles := [mf0]
    playbackSpeed := 2 }

/-! ## Membership lemmas for the computed preload plan -/

theorem option_any_eq_true {α : Type} {o : Option α} {p : α → Bool} :
    o.any p = true ↔ ∃ a, o = some a ∧ p a = true := by
  cases o <;> simp [Option.any]

theorem mem_sortByPriorityDesc {j : PreloadJob} {l : List PreloadJob} :
    j ∈ sortByPriorityDesc l ↔ j ∈ l :=
  List.mem_insertionSort _

theorem mem_sampleTimes {t a b : ℚ} :
    t ∈ sampleTimes a b ↔ ∃ k : ℕ, k < sampleCount a b ∧ t = a + (k : ℚ) * (1/24) := by
  constructor
  · intro h
    obtain ⟨k, hk, he⟩ := List.mem_map.1 h
    exact ⟨k, List.mem_range.1 hk, he.symm⟩
  · rintro ⟨k, hk, rfl⟩
    exact List.mem_map.2 ⟨k, List.mem_range.2 hk, rfl⟩

/-- Each sample time lies in `[a, b)`: the loop runs from `a` (inclusive)
while `time < b`. -/
theorem sampleTimes_bounds {t a b : ℚ} (h : t ∈ sampleTimes a b) :
    a ≤ t ∧ t < b := by
  obtain ⟨k, hk, rfl⟩ := mem_sampleTimes.1 h
  constructor
  · have : (0:ℚ) ≤ (k : ℚ) * (1/24) := by positivity
    linarith
  · have h1 : (k : ℤ) < ⌈(b - a) * 24⌉ := by
      have hk' := hk
      unfold sampleCount at hk'
      exact Int.lt_toNat.mp hk'
    have h2 : (k : ℚ) < (b - a) * 24 := by
      have h3 := Int.lt_ceil.1 h1
      push_cast at h3
      exact h3
    linarith

theorem mem_jobsForElement {job : PreloadJob} {mediaFiles : List MediaFile}
    {t0 r : ℚ} {e : MediaElement} :
    job ∈ jobsForElement mediaFiles t0 r e ↔
    ∃ m, mediaFiles.find? (fun m' => m'.id == e.mediaId) = some m ∧ m.type = "video" ∧
      ∃ f, m.file = some f ∧
        ∃ t ∈ sampleTimes (preloadStartOf t0 r e) (preloadEndOf t0 r e),
          job = mkJob m e t0 t f := by
  unfold jobsForElement
  cases hfind : mediaFiles.find? (fun m' => m'.id == e.mediaId) with
  | none => simp
  | some m =>
    by_cases htype : m.type = "video"
    · cases hfile : m.file with
      | none => simp [htype, hfile]
      | some f =>
        simp only [htype, hfile, beq_self_eq_true, if_true, List.mem_map,
          Option.some.injEq]
        constructor
        · rintro ⟨t, ht, rfl⟩
          exact ⟨m, rfl, htype, f, hfile, t, ht, rfl⟩
        · rintro ⟨m', hm', -, f', hf', t, ht, rfl⟩
          subst hm'
          rw [hfile] at hf'
          cases hf'
          exact ⟨t, ht, rfl⟩
    · simp [htype]

theorem mem_findRelevantVideoElements {e : MediaElement} {t0 la : ℚ}
    {tracks : List TimelineTrack} {mediaFiles : List MediaFile} :
    e ∈ findRelevantVideoElements t0 tracks mediaFiles la ↔
    ∃ track ∈ tracks, track.muted = false ∧ track.type = "media" ∧ e ∈ track.elements ∧
      e.type = "media" ∧ e.hidden = false ∧
      e.startTime < t0 + la ∧ t0 - 1 < e.elementEnd ∧
      ∃ m, mediaFiles.find? (fun m' => m'.id == e.mediaId) = some m ∧ m.type = "video" := by
  simp only [findRelevantVideoElements, List.mem_flatMap, List.mem_filter,
    Bool.and_eq_true, decide_eq_true_eq, beq_iff_eq, Bool.not_eq_true',
    option_any_eq_true]
  constructor
  · rintro ⟨track, htr, he⟩
    exact ⟨track, htr.1, htr.2.1, htr.2.2, he.1, he.2.1.1.1.1, he.2.1.1.1.2,
      he.2.1.1.2, he.2.1.2, he.2.2⟩
  · rintro ⟨track, htr, hmut, htyp, hel, het, hhid, hlt, hgt, hfind⟩
    exact ⟨track, ⟨htr, hmut, htyp⟩, hel, ⟨⟨⟨het, hhid⟩, hlt⟩, hgt⟩, hfind⟩

theorem mem_computeQueue {job : PreloadJob} {args : ScheduleArgs} {r : ℚ} :
    job ∈ computeQueue args r ↔
    ∃ e ∈ findRelevantVideoElements args.currentTime args.tracks args.mediaFiles r,
      job ∈ jobsForElement args.mediaFiles args.currentTime r e := by
  unfold computeQueue
  rw [mem_sortByPriorityDesc, List.mem_flatMap]

/-- The length of the computed plan is insensitive to the final sort. -/
theorem length_computeQueue (args : ScheduleArgs) (r : ℚ) :
    (computeQueue args r).length =
      ((findRelevantVideoElements args.currentTime args.tracks args.mediaFiles r).flatMap
        (jobsForElement args.mediaFiles args.currentTime r)).length := by
  simp [computeQueue, sortByPriorityDesc, List.length_insertionSort]

/-! ## Claim C3 — priority assignment -/

/-- C3: every job created by `schedulePreload` (a member of the plan
`computeQueue args (adjustedRadius s.preloadRadius args.playbackSpeed)` that
`schedulePreload args s` installs and drains) has priority exactly
`max(0, 100 - 10·|sampleTime - currentTime|)` for its sample time; hence no
priority is negative, and a sample time strictly closer to the playhead never
gets a strictly smaller priority. -/
theorem C3_priority_rule (args : ScheduleArgs) (s : VideoPreloader) (job : PreloadJob)
    (hmem : job ∈ computeQueue args (adjustedRadius s.preloadRadius args.playbackSpeed)) :
    (∃ (e : MediaElement) (m : MediaFile) (f : String) (t : ℚ),
      job = mkJob m e args.currentTime t f ∧
      job.targetTime = t - e.startTime + e.trimStart ∧
      job.priority = max 0 (100 - |t - args.currentTime| * 10)) ∧
    0 ≤ job.priority ∧
    ∀ t1 t2 : ℚ, |t1 - args.currentTime| < |t2 - args.currentTime| →
      jobPriority args.currentTime t2 ≤ jobPriority args.currentTime t1 := by
  obtain ⟨e, -, hj⟩ := mem_computeQueue.1 hmem
  obtain ⟨m, -, -, f, -, t, -, rfl⟩ := mem_jobsForElement.1 hj
  refine ⟨⟨e, m, f, t, rfl, rfl, rfl⟩, le_max_left _ _, ?_⟩
  intro t1 t2 hlt
  unfold jobPriority
  exact max_le_max le_rfl (by linarith)

/-- Witness for C3: the job sampled exactly at the playhead in scenario
`args0` carries priority 100. -/
theorem C3_priority_rule_witness :
    (⟨"a", "f", 0, 100⟩ : PreloadJob) ∈
      computeQueue args0 (adjustedRadius VideoPreloader.init.preloadRadius
        args0.playbackSpeed) ∧
    ((∃ (e : MediaElement) (m : MediaFile) (f : String) (t : ℚ),
        (⟨"a", "f", 0, 100⟩ : PreloadJob) = mkJob m e args0.currentTime t f ∧
        (⟨"a", "f", 0, 100⟩ : PreloadJob).targetTime = t - e.startTime + e.trimStart ∧
        (⟨"a", "f", 0, 100⟩ : PreloadJob).priority =
          max 0 (100 - |t - args0.currentTime| * 10)) ∧
      0 ≤ (⟨"a", "f", 0, 100⟩ : PreloadJob).priority ∧
      ∀ t1 t2 : ℚ, |t1 - args0.currentTime| < |t2 - args0.currentTime| →
        jobPriority args0.currentTime t2 ≤ jobPriority args0.currentTime t1) :=
  have hmem : (⟨"a", "f", 0, 100⟩ : PreloadJob) ∈
      computeQueue args0 (adjustedRadius VideoPreloader.init.preloadRadius
        args0.playbackSpeed) := by
    with_unfolding_all decide
  ⟨hmem, C3_priority_rule args0 VideoPreloader.init _ hmem⟩

/-! ## Claim C4 — which elements produce jobs, and at which sample times -/

/-- C4 counterexample: in scenario `args2` (playhead 10, speed 1, radius 3,
one video element active on `[7, 19/2]`), `schedulePreload` creates the job
`{mediaId := "a", file := "f", targetTime := 0, priority := 70}`, sampled at
timeline time `7 = 10 - radius`.  The claim places every sample inside the
overlap of the element's active window with the element-search window
`[currentTime - 1, currentTime + radius] = [9, 13]`, so it asserts a
sample-time witness `t ≥ max(startTime, 9)` for this job; no such `t` exists
(the job's trim-adjusted target time forces `t = 7 < 9`), refuting the claim
at this input. -/
theorem C4_counterexample :
    (⟨"a", "f", 0, 70⟩ : PreloadJob) ∈
      computeQueue args2 (adjustedRadius VideoPreloader.init.preloadRadius
        args2.playbackSpeed) ∧
    ¬ ∃ (e : MediaElement) (m : MediaFile) (f : String) (t : ℚ),
        (∃ track ∈ args2.tracks, e ∈ track.elements) ∧
        args2.mediaFiles.find? (fun m' => m'.id == e.mediaId) = some m ∧
        m.file = some f ∧
        max e.startTime (args2.currentTime - 1) ≤ t ∧
        t ≤ min e.elementEnd (args2.currentTime + adjustedRadius
          VideoPreloader.init.preloadRadius args2.playbackSpeed) ∧
        (⟨"a", "f", 0, 70⟩ : PreloadJob) = mkJob m e args2.currentTime t f := by
  constructor
  · with_unfolding_all decide
  · rintro ⟨e, m, f, t, ⟨tr, htr, hel⟩, hfind, hfile, hlow, -, hjob⟩
    simp only [args2, List.mem_singleton] at htr
    subst htr
    simp only [List.mem_singleton] at hel
    subst hel
    have ht : (0 : ℚ) = t - el2.startTime + el2.trimStart :=
      congrArg PreloadJob.targetTime hjob
    rw [show el2.startTime = 7 from rfl, show el2.trimStart = 0 from rfl] at ht
    have ht7 : t = 7 := by linarith
    subst ht7
    rw [show el2.startTime = 7 from rfl,
      show args2.currentTime - 1 = 9 by norm_num [args2]] at hlow
    rw [max_eq_right (by norm_num : (7:ℚ) ≤ 9)] at hlow
    norm_num at hlow

/-- C4 amended: `schedulePreload` creates jobs only for media-typed, non-hidden
elements on non-muted media tracks whose active interval meets the element
search window `(currentTime - 1, currentTime + radius)` and that resolve to a
video-typed media file with an available byte source; each job's sampled
timeline time lies in the overlap of the element's active window with the
*radius* window `[currentTime - radius, currentTime + radius)` (not the
element-search window), stepped at 1/24 s from the overlap's start, and its
`targetTime` is the trim-adjusted local time
`sampleTime - startTime + trimStart`. -/
theorem C4_amended_job_provenance (args : ScheduleArgs) (s : VideoPreloader)
    (job : PreloadJob)
    (hmem : job ∈ computeQueue args (adjustedRadius s.preloadRadius args.playbackSpeed)) :
    ∃ (e : MediaElement) (m : MediaFile) (f : String) (t : ℚ),
      (∃ track ∈ args.tracks, track.muted = false ∧ track.type = "media" ∧
        e ∈ track.elements) ∧
      e.type = "media" ∧ e.hidden = false ∧
      e.startTime < args.currentTime + adjustedRadius s.preloadRadius args.playbackSpeed ∧
      args.currentTime - 1 < e.elementEnd ∧
      args.mediaFiles.find? (fun m' => m'.id == e.mediaId) = some m ∧
      m.type = "video" ∧ m.file = some f ∧
      preloadStartOf args.currentTime
        (adjustedRadius s.preloadRadius args.playbackSpeed) e ≤ t ∧
      t < preloadEndOf args.currentTime
        (adjustedRadius s.preloadRadius args.playbackSpeed) e ∧
      (∃ k : ℕ, t = preloadStartOf args.currentTime
        (adjustedRadius s.preloadRadius args.playbackSpeed) e + (k : ℚ) * (1/24)) ∧
      job = mkJob m e args.currentTime t f := by
  obtain ⟨e, he, hj⟩ := mem_computeQueue.1 hmem
  obtain ⟨m, hfind, htype, f, hfile, t, ht, rfl⟩ := mem_jobsForElement.1 hj
  obtain ⟨tr, htr, hmut, httype, hel, hetype, hhid, hlt, hgt, -⟩ :=
    mem_findRelevantVideoElements.1 he
  obtain ⟨hlo, hhi⟩ := sampleTimes_bounds ht
  obtain ⟨k, -, hk⟩ := mem_sampleTimes.1 ht
  exact ⟨e, m, f, t, ⟨tr, htr, hmut, httype, hel⟩, hetype, hhid, hlt, hgt,
    hfind, htype, hfile, hlo, hhi, ⟨k, hk⟩, rfl⟩

/-- Witness for the amended C4 at the `args2` scenario job sampled at time 7. -/
theorem C4_amended_job_provenance_witness :
    ∃ (e : MediaElement) (m : MediaFile) (f : String) (t : ℚ),
      (∃ track ∈ args2.tracks, track.muted = false ∧ track.type = "media" ∧
        e ∈ track.elements) ∧
      e.type = "media" ∧ e.hidden = false ∧
      e.startTime < args2.currentTime + adjustedRadius VideoPreloader.init.preloadRadius
        args2.playbackSpeed ∧
      args2.currentTime - 1 < e.elementEnd ∧
      args2.mediaFiles.find? (fun m' => m'.id == e.mediaId) = some m ∧
      m.type = "video" ∧ m.file = some f ∧
      preloadStartOf args2.currentTime
        (adjustedRadius VideoPreloader.init.preloadRadius args2.playbackSpeed) e ≤ t ∧
      t < preloadEndOf args2.currentTime
        (adjustedRadius VideoPreloader.init.preloadRadius args2.playbackSpeed) e ∧
      (∃ k : ℕ, t = preloadStartOf args2.currentTime
        (adjustedRadius VideoPreloader.init.preloadRadius args2.playbackSpeed) e +
          (k : ℚ) * (1/24)) ∧
      (⟨"a", "f", 0, 70⟩ : PreloadJob) = mkJob m e args2.currentTime t f :=
  C4_amended_job_provenance args2 VideoPreloader.init ⟨"a", "f", 0, 70⟩
    (by with_unfolding_all decide)

/-! ## Claim C5 — speed-adjusted look-ahead radius -/

set_option maxRecDepth 200000 in
/-- C5: the effective look-ahead radius used by `schedulePreload` is
`preloadRadius / max(0.5, playbackSpeed)`; with base radius 3 and speed 2 it
is 1.5 s and (in scenario `args5a`/`args5b`, a video spanning `[0, 20]` around
playhead 10) produces strictly fewer candidate jobs than speed 1; and for any
speed ≤ 0.5 — including 0 — the radius is `base / 0.5`, with no error (the
divisor is bounded away from zero). -/
theorem C5_effective_radius (s : VideoPreloader) :
    (∀ base speed : ℚ, adjustedRadius base speed = base / max (1/2) speed) ∧
    (∀ args : ScheduleArgs, schedulePreload args s =
      processPreloadQueue { s with preloadQueue := computeQueue args (adjustedRadius s.preloadRadius args.playbackSpeed) }) ∧
    adjustedRadius 3 2 = 3/2 ∧
    (∀ speed : ℚ, speed ≤ 1/2 → ∀ base : ℚ, adjustedRadius base speed = base / (1/2)) ∧
    (computeQueue args5b (adjustedRadius 3 2)).length <
      (computeQueue args5a (adjustedRadius 3 1)).length := by
  refine ⟨fun base speed => rfl, fun args => rfl, ?_, ?_, ?_⟩
  · rw [adjustedRadius, max_eq_right (by norm_num : (1:ℚ)/2 ≤ 2)]
  · intro speed h base
    rw [adjustedRadius, max_eq_left h]
  · rw [length_computeQueue, length_computeQueue]
    with_unfolding_all decide

/-- Witness for C5: at speed 1/4 (≤ 0.5), the effective radius is `3 / 0.5`. -/
theorem C5_effective_radius_witness :
    adjustedRadius 3 (1/4) = 3 / (1/2) :=
  (C5_effective_radius VideoPreloader.init).2.2.2.1 (1/4) (by norm_num) 3

/-! ## Claim C1 — the concurrency bound as an invariant -/

/-- `GStep`: the same transitions as `Step`, except that a `configure` step may
change `maxConcurrentPreloads` only to a whole number that is not below the
number of currently active preloads.  (Unrestricted `configure` violates the
bound — see the C1 counterexample.) -/
inductive GStep : VideoPreloader → VideoPreloader → Prop
  | schedule (args : ScheduleArgs) (s : VideoPreloader) : GStep s (schedulePreload args s)
  | config (r c : Option ℚ) (s : VideoPreloader)
      (hnat : ∀ q, c = some q → ∃ n : ℕ, q = (n : ℚ))
      (hge : ∀ q, c = some q → (s.currentPreloads : ℚ) ≤ max 1 (min 4 q)) :
      GStep s (configure r c s)
  | clear (s : VideoPreloader) : GStep s (clearQueue s)
  | complete (s : VideoPreloader) (h : 0 < s.currentPreloads) : GStep s (completeJob s)

/-- Reachability under guarded steps. -/
def GReachable : VideoPreloader → VideoPreloader → Prop :=
  Relation.ReflTransGen GStep

/-- The inductive invariant: the active count respects the bound, and the
bound is a whole number. -/
def ConcurrencyInv (s : VideoPreloader) : Prop :=
  (s.currentPreloads : ℚ) ≤ s.maxConcurrentPreloads ∧
  ∃ n : ℕ, s.maxConcurrentPreloads = (n : ℚ)

theorem drainQueue_le (n : ℕ) (q : List PreloadJob) (a : ℕ) (h : a ≤ n) :
    (drainQueue (n : ℚ) q a).2 ≤ n := by
  induction q generalizing a with
  | nil => simpa [drainQueue] using h
  | cons job rest ih =>
    simp only [drainQueue]
    split_ifs with hlt
    · exact ih (a + 1) (Nat.succ_le_of_lt (by exact_mod_cast hlt))
    · simpa using h

theorem processPreloadQueue_max (s : VideoPreloader) :
    (processPreloadQueue s).maxConcurrentPreloads = s.maxConcurrentPreloads := by
  simp only [processPreloadQueue]
  split_ifs <;> rfl

theorem processPreloadQueue_cur (s : VideoPreloader) (n : ℕ)
    (hn : s.maxConcurrentPreloads = (n : ℚ)) (ha : s.currentPreloads ≤ n) :
    (processPreloadQueue s).currentPreloads ≤ n := by
  simp only [processPreloadQueue, hn]
  split_ifs <;> first | exact ha | exact drainQueue_le n _ _ ha

theorem processPreloadQueue_inv (s : VideoPreloader) (h : ConcurrencyInv s) :
    ConcurrencyInv (processPreloadQueue s) := by
  obtain ⟨hle, n, hn⟩ := h
  have ha : s.currentPreloads ≤ n := by exact_mod_cast hle.trans_eq hn
  refine ⟨?_, n, by rw [processPreloadQueue_max]; exact hn⟩
  rw [processPreloadQueue_max, hn]
  exact_mod_cast processPreloadQueue_cur s n hn ha

theorem schedulePreload_inv (args : ScheduleArgs) (s : VideoPreloader)
    (h : ConcurrencyInv s) : ConcurrencyInv (schedulePreload args s) := by
  unfold schedulePreload
  exact processPreloadQueue_inv _ h

theorem completeJob_inv (s : VideoPreloader) (h : ConcurrencyInv s) :
    ConcurrencyInv (completeJob s) := by
  obtain ⟨hle, n, hn⟩ := h
  have hdec : ((s.currentPreloads - 1 : ℕ) : ℚ) ≤ s.maxConcurrentPreloads :=
    le_trans (by exact_mod_cast Nat.sub_le _ _) hle
  simp only [completeJob]
  split_ifs with h1 h2
  · exact processPreloadQueue_inv _ ⟨hdec, n, hn⟩
  · exact ⟨hdec, n, hn⟩
  · exact ⟨hdec, n, hn⟩

theorem configure_inv (r c : Option ℚ) (s : VideoPreloader)
    (hnat : ∀ q, c = some q → ∃ n : ℕ, q = (n : ℚ))
    (hge : ∀ q, c = some q → (s.currentPreloads : ℚ) ≤ max 1 (min 4 q))
    (h : ConcurrencyInv s) : ConcurrencyInv (configure r c s) := by
  unfold configure
  cases c with
  | none =>
    cases r with
    | none => exact h
    | some rv => exact ⟨h.1, h.2⟩
  | some q =>
    obtain ⟨n, hn⟩ := hnat q rfl
    have hq := hge q rfl
    have hcast : max 1 (min 4 q) = ((max 1 (min 4 n) : ℕ) : ℚ) := by
      subst hn
      push_cast
      rfl
    cases r with
    | none => exact ⟨hq, max 1 (min 4 n), hcast⟩
    | some rv => exact ⟨hq, max 1 (min 4 n), hcast⟩

theorem GStep_inv {s t : VideoPreloader} (hst : GStep s t) (h : ConcurrencyInv s) :
    ConcurrencyInv t := by
  cases hst with
  | schedule args => exact schedulePreload_inv args s h
  | config r c _ hnat hge => exact configure_inv r c s hnat hge h
  | clear => exact ⟨h.1, h.2⟩
  | complete h2 => exact completeJob_inv s h

/-- C1 counterexample: with `configure` steps allowed to lower the bound, the
claimed invariant fails.  From the initial state, `schedulePreload` over
scenario `args0` starts two jobs (`currentPreloads = 2`), and
`configure({maxConcurrentPreloads: 1})` then lowers the bound to 1 while both
jobs are still in flight, reaching a state with `activePreloads = 2 > 1 =
maxConcurrentPreloads`. -/
theorem C1_counterexample :
    ¬ ∀ s : VideoPreloader, Reachable VideoPreloader.init s →
        (s.currentPreloads : ℚ) ≤ s.maxConcurrentPreloads := by
  intro hall
  have hr : Reachable VideoPreloader.init
      (configure none (some 1) (schedulePreload args0 VideoPreloader.init)) :=
    Relation.ReflTransGen.head (Step.schedule args0 VideoPreloader.init)
      (Relation.ReflTransGen.head
        (Step.config none (some 1) (schedulePreload args0 VideoPreloader.init))
        Relation.ReflTransGen.refl)
  have hle := hall _ hr
  revert hle
  with_unfolding_all decide

/-- C1 amended: in every state reachable from the initial state by
`schedulePreload`, `clearQueue`, job start/completion steps, and `configure`
steps that supply (if anything) a whole-number `maxConcurrentPreloads` not
below the current active count, the number of active preloads never exceeds
`maxConcurrentPreloads`.  (In particular the bound always holds when
`configure` is never called.) -/
theorem C1_amended_concurrency_bound (s : VideoPreloader)
    (h : GReachable VideoPreloader.init s) :
    (s.currentPreloads : ℚ) ≤ s.maxConcurrentPreloads := by
  suffices hinv : ConcurrencyInv s from hinv.1
  induction h with
  | refl =>
    exact ⟨by norm_num [VideoPreloader.init], 2, by norm_num [VideoPreloader.init]⟩
  | tail hreach hstep ih => exact GStep_inv hstep ih

/-- Witness for the amended C1 at the initial state itself. -/
theorem C1_amended_concurrency_bound_witness :
    ((VideoPreloader.init.currentPreloads : ℚ) ≤
      VideoPreloader.init.maxConcurrentPreloads) :=
  C1_amended_concurrency_bound VideoPreloader.init Relation.ReflTransGen.refl

/-! ## Claim C2 — the queue is supposed to drain, but stalls -/

set_option maxRecDepth 200000 in
/-- C2 (the code contradicts the claim): in scenario `args0` the computed plan
has 3 jobs while `maxConcurrentPreloads = 2`.  `schedulePreload` starts two
jobs and leaves one queued.  After both started jobs complete (successfully or
not), the third job has never been started: the completion callback's
`processPreloadQueue` call is a no-op because `isPreloading` is still `true`,
so the state is stuck with `queueLength = 1`, `activePreloads = 0` and
`isPreloading = true` — and even a later `schedulePreload` call can start
nothing ever again. -/
theorem C2_queue_never_drains :
    (computeQueue args0 (adjustedRadius VideoPreloader.init.preloadRadius
      args0.playbackSpeed)).length = 3 ∧
    getStats (schedulePreload args0 VideoPreloader.init) =
      PreloaderStats.mk 1 2 true ∧
    getStats (completeJob (completeJob (schedulePreload args0 VideoPreloader.init))) =
      PreloaderStats.mk 1 0 true ∧
    processPreloadQueue
        (completeJob (completeJob (schedulePreload args0 VideoPreloader.init))) =
      completeJob (completeJob (schedulePreload args0 VideoPreloader.init)) ∧
    (schedulePreload args0
        (completeJob (completeJob (schedulePreload args0 VideoPreloader.init)))).currentPreloads = 0 := by
  with_unfolding_all decide

/-! ## Performance Monitor (`performance-monitor.ts`) -/

structure PerformanceMetrics where
  frameRate : ℚ
  memoryUsage : ℚ
  cacheHitRate : ℚ
  videoDecodingTime : ℚ
  renderTime : ℚ
  lastUpdate : ℚ
deriving DecidableEq, Repr

structure PerformanceThresholds where
  minFrameRate : ℚ
  maxMemoryUsage : ℚ
  minCacheHitRate : ℚ
  maxVideoDecodingTime : ℚ
  maxRenderTime : ℚ
deriving DecidableEq, Repr

/-- The monitor's fixed threshold table: 24 fps, 1 GiB, 80 %, 50 ms, 16 ms. -/
def defaultThresholds : PerformanceThresholds :=
  { minFrameRate := 24
    maxMemoryUsage := 1024 * 1024 * 1024
    minCacheHitRate := 8/10
    maxVideoDecodingTime := 50
    maxRenderTime := 16 }

/-- `Math.round`: round to the nearest integer, halves toward positive
infinity. -/
def jsRound (q : ℚ) : ℤ := ⌊q + 1/2⌋

structure PerformanceStatus where
  isGood : Bool
  issues : List String
  suggestions : List String
deriving DecidableEq, Repr

/-- `getPerformanceStatus()`: one issue string and one suggestion string per
violated threshold, pushed in the fixed order frame rate, memory, hit rate,
decode time, render time; `isGood` iff the issue list is empty. -/
def getPerformanceStatus (m : PerformanceMetrics) : PerformanceStatus :=
  let t := defaultThresholds
  let issues : List String :=
    (if m.frameRate < t.minFrameRate then
      ["Low frame rate: " ++ toString m.frameRate ++ "fps (target: " ++
        toString t.minFrameRate ++ "fps)"] else []) ++
    (if t.maxMemoryUsage < m.memoryUsage then
      ["High memory usage: " ++ toString (jsRound (m.memoryUsage / (1024 * 1024))) ++
        "MB"] else []) ++
    (if m.cacheHitRate < t.minCacheHitRate then
      ["Low cache hit rate: " ++ toString (jsRound (m.cacheHitRate * 100)) ++
        "%"] else []) ++
    (if t.maxVideoDecodingTime < m.videoDecodingTime then
      ["Slow video decoding: " ++ toString (jsRound m.videoDecodingTime) ++
        "ms"] else []) ++
    (if t.maxRenderTime < m.renderTime then
      ["Slow rendering: " ++ toString (jsRound m.renderTime) ++ "ms"] else [])
  let suggestions : List String :=
    (if m.frameRate < t.minFrameRate then
      ["Consider reducing video quality or closing other browser tabs"] else []) ++
    (if t.maxMemoryUsage < m.memoryUsage then
      ["Try clearing video cache or reducing timeline complexity"] else []) ++
    (if m.cacheHitRate < t.minCacheHitRate then
      ["Allow more time for video preloading or reduce playback speed"] else []) ++
    (if t.maxVideoDecodingTime < m.videoDecodingTime then
      ["Try using lower resolution videos or converting to a more efficient codec"]
      else []) ++
    (if t.maxRenderTime < m.renderTime then
      ["Reduce the number of timeline elements or disable preview effects"] else [])
  { isGood := issues.isEmpty, issues := issues, suggestions := suggestions }

/-- `getPerformanceGrade()`: maps the issue count to a letter grade. -/
def getPerformanceGrade (m : PerformanceMetrics) : String :=
  let issueCount := (getPerformanceStatus m).issues.length
  if issueCount = 0 then "A"
  else if issueCount = 1 then "B"
  else if issueCount = 2 then "C"
  else if issueCount = 3 then "D"
  else "F"

/-- Modelled from the spec: the number of violated thresholds in a snapshot
(frame rate < 24 fps; memory > 1 GiB; hit rate < 80 %; decode > 50 ms;
render > 16 ms). -/
def specViolatedCount (m : PerformanceMetrics) : ℕ :=
  (if m.frameRate < 24 then 1 else 0) +
  (if 1024 * 1024 * 1024 < m.memoryUsage then 1 else 0) +
  (if m.cacheHitRate < 8/10 then 1 else 0) +
  (if 50 < m.videoDecodingTime then 1 else 0) +
  (if 16 < m.renderTime then 1 else 0)

/-- Modelled from the spec: issue count 0/1/2/3/≥4 maps to grade A/B/C/D/F. -/
def specGradeOfCount (n : ℕ) : String :=
  if n = 0 then "A" else if n = 1 then "B" else if n = 2 then "C"
  else if n = 3 then "D" else "F"

/-- Grade order A < B < C < D < F, for stating monotonicity. -/
def gradeRank (g : String) : ℕ :=
  if g = "A" then 0 else if g = "B" then 1 else if g = "C" then 2
  else if g = "D" then 3 else 4

theorem status_issues_length (m : PerformanceMetrics) :
    (getPerformanceStatus m).issues.length = specViolatedCount m := by
  simp only [getPerformanceStatus, specViolatedCount, defaultThresholds]
  split_ifs <;> rfl

theorem status_suggestions_length (m : PerformanceMetrics) :
    (getPerformanceStatus m).suggestions.length = specViolatedCount m := by
  simp only [getPerformanceStatus, specViolatedCount, defaultThresholds]
  split_ifs <;> rfl

theorem grade_eq_specGrade (m : PerformanceMetrics) :
    getPerformanceGrade m = specGradeOfCount (specViolatedCount m) := by
  simp only [getPerformanceGrade, specGradeOfCount, status_issues_length]

theorem gradeRank_specGradeOfCount (n : ℕ) :
    gradeRank (specGradeOfCount n) = min n 4 := by
  unfold specGradeOfCount
  split_ifs with h0 h1 h2 h3
  · subst h0; decide
  · subst h1; decide
  · subst h2; decide
  · subst h3; decide
  · rw [show gradeRank "F" = 4 from rfl]
    omega

/-! ## Claim C7 — performance status and grade -/

/-- C7: `getPerformanceStatus` returns exactly one issue and one suggestion
per violated threshold of the fixed table, with `isGood` true iff no threshold
is violated; `getPerformanceGrade` maps the issue count 0/1/2/3/≥4 to
A/B/C/D/F, and a snapshot violating strictly more thresholds never gets a
strictly better grade. -/
theorem C7_status_and_grade (m : PerformanceMetrics) :
    (getPerformanceStatus m).issues.length = specViolatedCount m ∧
    (getPerformanceStatus m).suggestions.length = specViolatedCount m ∧
    ((getPerformanceStatus m).isGood = true ↔ specViolatedCount m = 0) ∧
    getPerformanceGrade m = specGradeOfCount (specViolatedCount m) ∧
    (∀ m2 : PerformanceMetrics, specViolatedCount m < specViolatedCount m2 →
      gradeRank (getPerformanceGrade m) ≤ gradeRank (getPerformanceGrade m2)) := by
  refine ⟨status_issues_length m, status_suggestions_length m, ?_, grade_eq_specGrade m, ?_⟩
  · rw [show (getPerformanceStatus m).isGood = (getPerformanceStatus m).issues.isEmpty
      from rfl, List.isEmpty_iff, ← List.length_eq_zero, status_issues_length]
  · intro m2 hlt
    rw [grade_eq_specGrade, grade_eq_specGrade, gradeRank_specGradeOfCount,
      gradeRank_specGradeOfCount]
    omega

/-- Witness for C7 at a healthy snapshot and one with a single violation. -/
theorem C7_status_and_grade_witness :
    ((getPerformanceStatus (PerformanceMetrics.mk 60 0 1 0 0 0)).isGood = true ↔
      specViolatedCount (PerformanceMetrics.mk 60 0 1 0 0 0) = 0) ∧
    specViolatedCount (PerformanceMetrics.mk 60 0 1 0 0 0) <
      specViolatedCount (PerformanceMetrics.mk 10 0 1 0 0 0) ∧
    gradeRank (getPerformanceGrade (PerformanceMetrics.mk 60 0 1 0 0 0)) ≤
      gradeRank (getPerformanceGrade (PerformanceMetrics.mk 10 0 1 0 0 0)) :=
  have hlt : specViolatedCount (PerformanceMetrics.mk 60 0 1 0 0 0) <
      specViolatedCount (PerformanceMetrics.mk 10 0 1 0 0 0) := by
    with_unfolding_all decide
  ⟨(C7_status_and_grade (PerformanceMetrics.mk 60 0 1 0 0 0)).2.2.1, hlt,
    (C7_status_and_grade (PerformanceMetrics.mk 60 0 1 0 0 0)).2.2.2.2
      (PerformanceMetrics.mk 10 0 1 0 0 0) hlt⟩

/-! ## Claim C6 — configure clamps its inputs -/

/-- C6: `configure` clamps a supplied `preloadRadius` into `[1, 10]` and a
supplied `maxConcurrentPreloads` into `[1, 4]` for every input value (it is a
total function, so no error is ever raised); in particular
`configure({preloadRadius: 999})` yields radius 10 and
`configure({maxConcurrentPreloads: 0})` yields concurrency 1. -/
theorem C6_configure_clamps (r c : ℚ) (s : VideoPreloader) :
    1 ≤ (configure (some r) (some c) s).preloadRadius ∧
    (configure (some r) (some c) s).preloadRadius ≤ 10 ∧
    1 ≤ (configure (some r) (some c) s).maxConcurrentPreloads ∧
    (configure (some r) (some c) s).maxConcurrentPreloads ≤ 4 ∧
    (configure (some 999) none s).preloadRadius = 10 ∧
    (configure none (some 0) s).maxConcurrentPreloads = 1 := by
  refine ⟨?_, ?_, ?_, ?_, ?_, ?_⟩ <;> simp only [configure] <;>
    first
      | exact le_max_left _ _
      | exact max_le (by norm_num) (min_le_left _ _)
      | norm_num [max_def, min_def]

/-! ## Claim C10 — omitted configure fields leave settings unchanged -/

/-- C10: a `configure` field that is omitted (`undefined`) leaves the
corresponding setting unchanged: `configure({})` is the identity, and
configuring only one of the two settings leaves the other (and all other
state) untouched. -/
theorem C10_configure_omitted_fields (s : VideoPreloader) (r c : ℚ) :
    configure none none s = s ∧
    (configure (some r) none s).maxConcurrentPreloads = s.maxConcurrentPreloads ∧
    (configure (some r) none s).preloadQueue = s.preloadQueue ∧
    (configure (some r) none s).currentPreloads = s.currentPreloads ∧
    (configure (some r) none s).isPreloading = s.isPreloading ∧
    (configure none (some c) s).preloadRadius = s.preloadRadius ∧
    (configure none (some c) s).preloadQueue = s.preloadQueue ∧
    (configure none (some c) s).currentPreloads = s.currentPreloads ∧
    (configure none (some c) s).isPreloading = s.isPreloading := by
  refine ⟨rfl, ?_⟩
  simp [configure]

/-! ## Claim C9 — clearQueue drops exactly the pending queue -/

/-- C9: `clearQueue` empties the pending-job queue (`getStats` then reports
`queueLength = 0`) and changes nothing else — `activePreloads`, `isPreloading`,
`preloadRadius` and `maxConcurrentPreloads` are untouched, so in-flight jobs
are not aborted; and `schedulePreload` is insensitive to whatever was queued
before (it discards the old queue before computing the new plan). -/
theorem C9_clearQueue_frame (s : VideoPreloader) (args : ScheduleArgs)
    (q : List PreloadJob) :
    (clearQueue s).preloadQueue = [] ∧
    (getStats (clearQueue s)).queueLength = 0 ∧
    (clearQueue s).currentPreloads = s.currentPreloads ∧
    (clearQueue s).isPreloading = s.isPreloading ∧
    (clearQueue s).preloadRadius = s.preloadRadius ∧
    (clearQueue s).maxConcurrentPreloads = s.maxConcurrentPreloads ∧
    schedulePreload args { s with preloadQueue := q } = schedulePreload args s := by
  refine ⟨rfl, rfl, rfl, rfl, rfl, rfl, ?_⟩
  simp [schedulePreload]

/-! ## Claim C8 — preload failures are swallowed -/

/-- C8: when the Frame Cache call fails for one preload job, the failure is
swallowed: the job runner maps the error outcome to exactly the same state
transition as the success outcome (no exception escapes), the active-preload
counter is still decremented by the `finally` block, and the queued jobs are
untouched by that completion (they are neither aborted nor skipped).  The
hypothesis `isPreloading = true` holds whenever a started job is in flight,
since only the completion of the last job with an empty queue resets it. -/
theorem C8_failure_swallowed (s : VideoPreloader) (errMsg : String)
    (hp : s.isPreloading = true) :
    runJob (Except.error errMsg) s = runJob (Except.ok ()) s ∧
    runJob (Except.error errMsg) s = completeJob s ∧
    (runJob (Except.error errMsg) s).currentPreloads = s.currentPreloads - 1 ∧
    (runJob (Except.error errMsg) s).preloadQueue = s.preloadQueue := by
  refine ⟨rfl, rfl, ?_, ?_⟩ <;>
    · simp only [runJob, completeJob, processPreloadQueue, hp]
      split_ifs <;> simp_all

/-- Witness for C8 at a concrete in-flight state. -/
theorem C8_failure_swallowed_witness :
    runJob (Except.error "decode failed") (VideoPreloader.mk [] true 3 2 1) =
      runJob (Except.ok ()) (VideoPreloader.mk [] true 3 2 1) ∧
    runJob (Except.error "decode failed") (VideoPreloader.mk [] true 3 2 1) =
      completeJob (VideoPreloader.mk [] true 3 2 1) ∧
    (runJob (Except.error "decode failed") (VideoPreloader.mk [] true 3 2 1)).currentPreloads =
      (VideoPreloader.mk [] true 3 2 1).currentPreloads - 1 ∧
    (runJob (Except.error "decode failed") (VideoPreloader.mk [] true 3 2 1)).preloadQueue =
      (VideoPreloader.mk [] true 3 2 1).preloadQueue :=
  C8_failure_swallowed (VideoPreloader.mk [] true 3 2 1) "decode failed" rfl

end OpenCut
